import Mathlib

/-!
Shallow embedding of the adaptive-threshold ransomware monitor (`main.py`)
and proofs about its detection, baseline, sampling, debounce and publishing
logic.

Conventions of the embedding:
* Python floats are modelled as exact rationals (`ℚ`).
* The baseline dictionary `baseline_stats` always holds all 15 feature keys
  (it is initialised with all of them and `update_baseline` preserves the key
  set), so it is modelled as a total function `FeatureKey → Stats`; the
  `.get(key, {}).get("mean", 1)` default in the source can therefore never
  trigger and is not reachable in the model.
* OS probes are modelled as an environment record supplying the value each
  probe returns during the cycle; a fallible variant supplies `Option ℚ`
  (`none` = the robust sampler returned `None` because every sample failed).
* A `trigger_response` invocation is modelled as a pure state transition on
  the debounce flag returning the list of performed side effects.
-/

/-- The 15 feature keys of `baseline_stats` in `main.py`
(`crypto_api_calls` is not a baseline key and never read by any
detection/update/publish path, so it is omitted). -/
inductive FeatureKey where
  | cpu_usage
  | memory_usage
  | disk_usage
  | modified
  | renamed
  | deleted
  | entropy_alerts
  | unauth_proc_count
  | shadow_copy_flag
  | registry_alerts_count
  | susp_net_count
  | susp_ext_count
  | proc_injection
  | sys_call_anomaly
  | total_net_connections
deriving DecidableEq, Repr

/-- One entry of `baseline_stats`: a `{"mean": _, "std": _}` pair. -/
structure Stats where
  mean : ℚ
  std : ℚ
deriving DecidableEq, Repr

/-- The initial `baseline_stats` dictionary (lines 56-72 of `main.py`). -/
def baseline_stats_init : FeatureKey → Stats := fun k =>
  match k with
  | .cpu_usage => ⟨20, 5⟩
  | .memory_usage => ⟨30, 10⟩
  | .disk_usage => ⟨40, 10⟩
  | .modified => ⟨2, 1⟩
  | .renamed => ⟨1, 1/2⟩
  | .deleted => ⟨1, 1/2⟩
  | .entropy_alerts => ⟨3, 1⟩
  | .unauth_proc_count => ⟨0, 0⟩
  | .shadow_copy_flag => ⟨0, 0⟩
  | .registry_alerts_count => ⟨0, 0⟩
  | .susp_net_count => ⟨0, 0⟩
  | .susp_ext_count => ⟨0, 0⟩
  | .proc_injection => ⟨0, 0⟩
  | .sys_call_anomaly => ⟨0, 0⟩
  | .total_net_connections => ⟨50, 20⟩

/-- `update_baseline(baseline, new_data, alpha=0.1)` (lines 291-298).
`new_data` is the data dict: `new_data.get(key, stats['mean'])` falls back to
the current mean when the key is absent, which is modelled by an `Option`
valued map and `Option.getD`. -/
def update_baseline (baseline : FeatureKey → Stats) (new_data : FeatureKey → Option ℚ)
    (alpha : ℚ) : FeatureKey → Stats := fun key =>
  let stats := baseline key
  let new_value := (new_data key).getD stats.mean
  let updated_mean := (1 - alpha) * stats.mean + alpha * new_value
  let updated_std := (1 - alpha) * stats.std + alpha * |new_value - updated_mean|
  ⟨updated_mean, updated_std⟩

/-- The fixed watch list `["memory_usage", "disk_usage", "modified", "entropy_alerts"]`
iterated over by both the early-alert check (line 305) and the main
detection loop (line 368). -/
def watch_list : List FeatureKey :=
  [.memory_usage, .disk_usage, .modified, .entropy_alerts]

/-- The `sudden_anomaly` computation of `collect_and_predict` (lines 367-376):
a for-loop over the watch list setting the flag (with `break`) when the
relative deviation from the baseline mean exceeds 0.85, followed by the
absolute file-event check (threshold 30). The loop with early `break` is
equivalently a `List.any`. -/
def sudden_anomaly_check (baseline : FeatureKey → Stats) (data : FeatureKey → ℚ) : Bool :=
  let rel := watch_list.any fun key =>
    let base_mean := (baseline key).mean
    decide (0 < base_mean) && decide ((0.85 : ℚ) < |data key - base_mean| / base_mean)
  rel || decide ((30 : ℚ) ≤ data .modified) || decide ((30 : ℚ) ≤ data .renamed)
      || decide ((30 : ℚ) ≤ data .deleted)

/-- `detection = 1 if sudden_anomaly else 0` (line 378). -/
def detection (baseline : FeatureKey → Stats) (data : FeatureKey → ℚ) : ℕ :=
  if sudden_anomaly_check baseline data then 1 else 0

/-- `data["state"] = "ransomware detected" if detection == 1 else "normal"` (line 380). -/
def detector_state (baseline : FeatureKey → Stats) (data : FeatureKey → ℚ) : String :=
  if detection baseline data = 1 then "ransomware detected" else "normal"

/-- The anomaly condition as the specification words it: some watched feature
with positive baseline mean deviates relatively by more than 0.85, or one of
the three file-event counters reaches 30. -/
def anomaly_condition (baseline : FeatureKey → Stats) (data : FeatureKey → ℚ) : Prop :=
  (∃ k ∈ watch_list, 0 < (baseline k).mean ∧
      (0.85 : ℚ) < |data k - (baseline k).mean| / (baseline k).mean)
    ∨ (30 : ℚ) ≤ data .modified ∨ (30 : ℚ) ≤ data .renamed ∨ (30 : ℚ) ≤ data .deleted

lemma sudden_anomaly_check_iff (baseline : FeatureKey → Stats) (data : FeatureKey → ℚ) :
    sudden_anomaly_check baseline data = true ↔ anomaly_condition baseline data := by
  simp only [sudden_anomaly_check, anomaly_condition, watch_list, List.any_cons,
    List.any_nil, Bool.or_eq_true, Bool.and_eq_true, decide_eq_true_eq, List.mem_cons,
    List.not_mem_nil, or_false, exists_eq_or_imp, exists_eq_left]
  tauto

/-- `check_and_trigger_early_alert(data)` firing condition (lines 304-315):
the for-loop returns immediately after triggering on the first watched key
whose relative deviation exceeds 0.85; only when no key fired is the absolute
file-event threshold checked. -/
def check_and_trigger_early_alert_fires (baseline : FeatureKey → Stats)
    (data : FeatureKey → ℚ) : Bool :=
  if watch_list.any (fun key =>
      let base_mean := (baseline key).mean
      decide (0 < base_mean) && decide ((0.85 : ℚ) < |data key - base_mean| / base_mean))
  then true
  else decide ((30 : ℚ) ≤ data .modified) || decide ((30 : ℚ) ≤ data .renamed)
      || decide ((30 : ℚ) ≤ data .deleted)

/-- Insertion of one value into a sorted list of rationals. -/
def insertSorted (x : ℚ) : List ℚ → List ℚ
  | [] => [x]
  | y :: ys => if x ≤ y then x :: y :: ys else y :: insertSorted x ys

/-- Insertion sort on rationals, used to model the sort inside `np.median`. -/
def sortQ : List ℚ → List ℚ
  | [] => []
  | x :: xs => insertSorted x (sortQ xs)

/-- `np.median(vals)`: sort; for odd length take the middle element, for even
length the average of the two middle elements. -/
def npMedian (vals : List ℚ) : ℚ :=
  let s := sortQ vals
  let n := s.length
  if n % 2 = 1 then s.getD (n / 2) 0
  else (s.getD (n / 2 - 1) 0 + s.getD (n / 2) 0) / 2

/-- `robust_average(func, samples, delay, outlier_threshold)` (lines 85-105).
The sampling loop is modelled by its outcome list `results` (one entry per
invocation of `func`; `none` = the call raised and was skipped), so
`vals = results.filterMap id`.  The inter-sample `delay` has no effect on the
returned value and is dropped. -/
def robust_average (results : List (Option ℚ)) (outlier_threshold : ℚ) : Option ℚ :=
  let vals := results.filterMap id
  if vals.isEmpty then none
  else
    let median_val := npMedian vals
    if median_val = 0 then some 0
    else
      let filtered := vals.filter fun v => |v - median_val| / |median_val| ≤ outlier_threshold
      if filtered.isEmpty then some median_val
      else some (filtered.sum / (filtered.length : ℚ))

/-- The three path sets of `FileMonitorHandler` (lines 233-264). -/
structure FileMonitorHandler where
  modified_files : Finset String
  renamed_files : Finset String
  deleted_files : Finset String
deriving DecidableEq

/-- A watchdog filesystem event as consumed by the handler callbacks. -/
structure FsEvent where
  is_directory : Bool
  src_path : String
  dest_path : String

/-- `on_modified`: add `event.src_path` to the modified set unless the event
is a directory event. -/
def FileMonitorHandler.on_modified (h : FileMonitorHandler) (e : FsEvent) : FileMonitorHandler :=
  if e.is_directory then h
  else { h with modified_files := insert e.src_path h.modified_files }

/-- `on_created`: also adds `event.src_path` to the modified set. -/
def FileMonitorHandler.on_created (h : FileMonitorHandler) (e : FsEvent) : FileMonitorHandler :=
  if e.is_directory then h
  else { h with modified_files := insert e.src_path h.modified_files }

/-- `on_deleted`: add `event.src_path` to the deleted set. -/
def FileMonitorHandler.on_deleted (h : FileMonitorHandler) (e : FsEvent) : FileMonitorHandler :=
  if e.is_directory then h
  else { h with deleted_files := insert e.src_path h.deleted_files }

/-- `on_moved`: add `event.dest_path` to the renamed set. -/
def FileMonitorHandler.on_moved (h : FileMonitorHandler) (e : FsEvent) : FileMonitorHandler :=
  if e.is_directory then h
  else { h with renamed_files := insert e.dest_path h.renamed_files }

/-- The `counts` dictionary returned by `get_file_event_counts`. -/
structure FileEventCounts where
  modified : ℕ
  renamed : ℕ
  deleted : ℕ
deriving DecidableEq, Repr

/-- `get_file_event_counts` (lines 255-264): return the three set sizes and
clear all three sets. -/
def FileMonitorHandler.get_file_event_counts (h : FileMonitorHandler) :
    FileEventCounts × FileMonitorHandler :=
  (⟨h.modified_files.card, h.renamed_files.card, h.deleted_files.card⟩, ⟨∅, ∅, ∅⟩)

/-- `MONITOR_PATH` (line 76). -/
def MONITOR_PATH : String := "C:\\Users\\Home\\Documents"

/-- The fixed alert text of the message built in `trigger_response` (line 484). -/
def alert_text : String :=
  "Potential ransomware activity detected! Immediate action is recommended to be safe. All further actions are blocked."

/-- Messages published to subscribers, discriminated by their `type` field. -/
inductive Message where
  | ping
  | alert (text : String) (data : FeatureKey → ℚ)
  | live_tracking (features : List (String × ℚ))

/-- Side effects performed by `trigger_response` (named to avoid clashing with the library). -/
inductive RespAction where
  | block_directory (path : String)
  | publish (msg : Message)

/-- `response_triggered_flag` plus the pending `reset_response_flag(60)` task:
`flag` is whether the event is set, `resetAt` the absolute time at which the
scheduled reset clears it (meaningful only while `flag` is set). -/
structure DebounceState where
  flag : Bool
  resetAt : ℕ
deriving DecidableEq, Repr

/-- `trigger_response(data)` (lines 476-488): when the flag is already set do
nothing; otherwise set it, block the monitored directory, publish one alert
message carrying the fixed text and the data snapshot, and schedule the flag
clear 60 time units later.  (The `action_blocked` global only gates the
ransomware simulation endpoint and is not modelled.) -/
def trigger_response (deb : DebounceState) (now : ℕ) (data : FeatureKey → ℚ) :
    DebounceState × List RespAction :=
  if deb.flag then (deb, [])
  else (⟨true, now + 60⟩,
    [RespAction.block_directory MONITOR_PATH, RespAction.publish (Message.alert alert_text data)])

/-- Effect of the pending `reset_response_flag` task by time `now`: the flag
set at some earlier instant clears once its scheduled reset time is reached. -/
def reset_if_due (deb : DebounceState) (now : ℕ) : DebounceState :=
  if deb.flag && decide (deb.resetAt ≤ now) then { deb with flag := false } else deb

/-- Fire times of a timed sequence of anomaly signals: each signal at time `t`
sees the debounce flag (after any due reset) and acts as `trigger_response`
does — it fires exactly when the flag is clear, re-arming the 60-unit window. -/
def runAnomalies (deb : DebounceState) : List ℕ → List ℕ
  | [] => []
  | t :: ts =>
    let deb0 := reset_if_due deb t
    if deb0.flag = true then runAnomalies deb0 ts
    else t :: runAnomalies (trigger_response deb0 t fun _ => 0).1 ts

/-- A WebSocket subscriber: `send_fails` records whether its `send_json`
raises when invoked. -/
structure Client where
  cid : ℕ
  send_fails : Bool
deriving DecidableEq, Repr

/-- Outcome of one `send_json` attempt. -/
inductive SendResult where
  | delivered
  | failed
deriving DecidableEq, Repr

/-- `notify_clients(alert_message)` (lines 469-474): loop over the connected
clients, attempting the send for each one inside its own try/except, so one
client's failure never stops the loop. -/
def notify_clients (clients : List Client) (_msg : Message) : List (ℕ × SendResult) :=
  clients.map fun c => (c.cid, if c.send_fails then SendResult.failed else SendResult.delivered)

/-- The `data["features"]` dictionary built at lines 391-406: the 14 raw
feature values of the cycle (no `cpu_usage`, no `crypto_api_calls`). -/
def features_map (data : FeatureKey → ℚ) : List (String × ℚ) :=
  [("memory_usage", data .memory_usage),
   ("disk_usage", data .disk_usage),
   ("modified", data .modified),
   ("renamed", data .renamed),
   ("deleted", data .deleted),
   ("entropy_alerts", data .entropy_alerts),
   ("unauth_proc_count", data .unauth_proc_count),
   ("shadow_copy_flag", data .shadow_copy_flag),
   ("registry_alerts_count", data .registry_alerts_count),
   ("susp_net_count", data .susp_net_count),
   ("susp_ext_count", data .susp_ext_count),
   ("proc_injection", data .proc_injection),
   ("sys_call_anomaly", data .sys_call_anomaly),
   ("total_net_connections", data .total_net_connections)]

/-- `notify_live_tracking(data)` (lines 490-496): build the live-tracking
message from the cycle's features dictionary and attempt delivery to every
client, each send inside its own try/except. -/
def notify_live_tracking (clients : List Client) (features : List (String × ℚ)) :
    Message × List (ℕ × SendResult) :=
  let message := Message.live_tracking features
  (message, notify_clients clients message)

/-- Values returned by the OS probes during one cycle (all probes succeed).
`proc_injection`, `sys_call_anomaly` are the constant-zero monitors. -/
structure ProbeEnv where
  cpu_usage : ℚ
  memory_usage : ℚ
  disk_usage : ℚ
  entropy_alerts : ℚ
  unauth_proc_count : ℚ
  shadow_copy_flag : ℚ
  registry_alerts_count : ℚ
  susp_net_count : ℚ
  susp_ext_count : ℚ
  total_net_connections : ℚ

/-- `collect_system_data()` (lines 320-342) for a cycle in which every probe
returns a value: drain the file-monitor handler and assemble the data map. -/
def collect_system_data (env : ProbeEnv) (h : FileMonitorHandler) :
    (FeatureKey → ℚ) × FileMonitorHandler :=
  let res := h.get_file_event_counts
  (fun k => match k with
    | .cpu_usage => env.cpu_usage
    | .memory_usage => env.memory_usage
    | .disk_usage => env.disk_usage
    | .modified => (res.1.modified : ℚ)
    | .renamed => (res.1.renamed : ℚ)
    | .deleted => (res.1.deleted : ℚ)
    | .entropy_alerts => env.entropy_alerts
    | .unauth_proc_count => env.unauth_proc_count
    | .shadow_copy_flag => env.shadow_copy_flag
    | .registry_alerts_count => env.registry_alerts_count
    | .susp_net_count => env.susp_net_count
    | .susp_ext_count => env.susp_ext_count
    | .proc_injection => 0
    | .sys_call_anomaly => 0
    | .total_net_connections => env.total_net_connections,
   res.2)

/-- The mutable globals touched by one detection cycle. -/
structure SystemState where
  handler : FileMonitorHandler
  baseline : FeatureKey → Stats
  deb : DebounceState

/-- Result of one `collect_and_predict(ensemble_models)` call. -/
structure CycleResult where
  data : FeatureKey → ℚ
  detection : ℕ
  state : String
  ml_model_dedicated : Bool
  response_triggered : Bool
  features : List (String × ℚ)
  actions : List RespAction
  handler : FileMonitorHandler
  baseline : FeatureKey → Stats
  deb : DebounceState

/-- `collect_and_predict(ensemble_models)` (lines 344-407): collect the data
(draining the handler), run the early-alert check (which may call
`trigger_response`), compute `sudden_anomaly` against the current baseline,
call `trigger_response` when `detection == 1`, then replace the baseline by
one `update_baseline` step and build the features dictionary. -/
def collect_and_predict (env : ProbeEnv) (now : ℕ) (s : SystemState) : CycleResult :=
  let step1 := collect_system_data env s.handler
  let data := step1.1
  let early :=
    if check_and_trigger_early_alert_fires s.baseline data then
      trigger_response s.deb now data
    else (s.deb, [])
  let det : ℕ := if sudden_anomaly_check s.baseline data then 1 else 0
  let main :=
    if det = 1 then trigger_response early.1 now data
    else (early.1, [])
  { data := data
    detection := det
    state := if det = 1 then "ransomware detected" else "normal"
    ml_model_dedicated := det = 1
    response_triggered := det = 1
    features := features_map data
    actions := early.2 ++ main.2
    handler := step1.2
    baseline := update_baseline s.baseline (fun k => some (data k)) 0.1
    deb := main.1 }

/-- The `/system_data` endpoint body `get_system_data()` (lines 642-645):
run a full `collect_and_predict` cycle and wrap status and flag; the new
global state is the one the cycle left behind. -/
def get_system_data (env : ProbeEnv) (now : ℕ) (s : SystemState) :
    (String × Bool × CycleResult) × SystemState :=
  let r := collect_and_predict env now s
  ((r.state, r.ml_model_dedicated, r),
   { handler := r.handler, baseline := r.baseline, deb := r.deb })

/-- Probe values for a cycle in which sampler-backed probes may have
exhausted all their samples: `robust_average` then returned `None`, modelled
as `none`.  The non-sampler probes (entropy scan, shadow-copy flag, registry
scan) always return an integer and stay total. -/
structure FallibleProbes where
  cpu_usage : Option ℚ
  memory_usage : Option ℚ
  disk_usage : Option ℚ
  unauth_proc_count : Option ℚ
  susp_net_count : Option ℚ
  susp_ext_count : Option ℚ
  total_net_connections : Option ℚ
  entropy_alerts : ℚ
  shadow_copy_flag : ℚ
  registry_alerts_count : ℚ

/-- `collect_system_data()` (lines 320-342) with fallible sampler-backed
probes: the value each probe returned — `None` included — is stored in the
data dict unchanged; no fallback of any kind is applied to a `None`. -/
def collect_system_data_fallible (env : FallibleProbes) (h : FileMonitorHandler) :
    (FeatureKey → Option ℚ) × FileMonitorHandler :=
  let res := h.get_file_event_counts
  (fun k => match k with
    | .cpu_usage => env.cpu_usage
    | .memory_usage => env.memory_usage
    | .disk_usage => env.disk_usage
    | .modified => some (res.1.modified : ℚ)
    | .renamed => some (res.1.renamed : ℚ)
    | .deleted => some (res.1.deleted : ℚ)
    | .entropy_alerts => some env.entropy_alerts
    | .unauth_proc_count => env.unauth_proc_count
    | .shadow_copy_flag => some env.shadow_copy_flag
    | .registry_alerts_count => some env.registry_alerts_count
    | .susp_net_count => env.susp_net_count
    | .susp_ext_count => env.susp_ext_count
    | .proc_injection => some 0
    | .sys_call_anomaly => some 0
    | .total_net_connections => env.total_net_connections,
   res.2)

/-- The relative-deviation loop of `check_and_trigger_early_alert` evaluated
under Python semantics on possibly-`None` data: `base_mean > 0` is tested
first (short-circuit `and`), then `abs(data[key] - base_mean)` raises a
`TypeError` when `data[key]` is `None`. -/
def early_alert_relative_scan (baseline : FeatureKey → Stats) (data : FeatureKey → Option ℚ) :
    List FeatureKey → Except String Bool
  | [] => .ok false
  | k :: rest =>
    let base_mean := (baseline k).mean
    if 0 < base_mean then
      match data k with
      | none => .error "TypeError"
      | some v =>
        if (0.85 : ℚ) < |v - base_mean| / base_mean then .ok true
        else early_alert_relative_scan baseline data rest
    else early_alert_relative_scan baseline data rest

/-- Python comparison `x >= c` where `x` may be `None`: a `None` operand
raises a `TypeError`. -/
def pyGe (x : Option ℚ) (c : ℚ) : Except String Bool :=
  match x with
  | none => .error "TypeError"
  | some v => .ok (decide (c ≤ v))

/-- `check_and_trigger_early_alert(data)` (lines 304-315) under Python
semantics on possibly-`None` data: the relative-deviation loop (with its
early return on fire) followed by the short-circuit absolute file-event
check `data["modified"] >= 30 or data["renamed"] >= 30 or data["deleted"] >= 30`.
`.ok b` means the check completed and `b` says whether it fired;
`.error` means the cycle aborted with an uncaught `TypeError`. -/
def check_and_trigger_early_alert_fallible (baseline : FeatureKey → Stats)
    (data : FeatureKey → Option ℚ) : Except String Bool :=
  match early_alert_relative_scan baseline data watch_list with
  | .error e => .error e
  | .ok true => .ok true
  | .ok false =>
    match pyGe (data .modified) 30 with
    | .error e => .error e
    | .ok true => .ok true
    | .ok false =>
      match pyGe (data .renamed) 30 with
      | .error e => .error e
      | .ok true => .ok true
      | .ok false => pyGe (data .deleted) 30

/-- A probe environment in which a single source — the memory-usage sampler —
fails by exhaustion (all five `psutil.virtual_memory().percent` samples
raised), while every other probe succeeds with an ordinary value. -/
def failing_probes : FallibleProbes :=
  { cpu_usage := some 20
    memory_usage := none
    disk_usage := some 40
    unauth_proc_count := some 0
    susp_net_count := some 0
    susp_ext_count := some 0
    total_net_connections := some 50
    entropy_alerts := 3
    shadow_copy_flag := 0
    registry_alerts_count := 0 }

lemma mem_insertSorted {x a : ℚ} {l : List ℚ} :
    x ∈ insertSorted a l ↔ x = a ∨ x ∈ l := by
  induction l with
  | nil => simp [insertSorted]
  | cons y ys ih =>
    by_cases h : a ≤ y <;> simp [insertSorted, h, ih]
    tauto

lemma length_insertSorted (a : ℚ) (l : List ℚ) :
    (insertSorted a l).length = l.length + 1 := by
  induction l with
  | nil => simp [insertSorted]
  | cons y ys ih =>
    by_cases h : a ≤ y <;> simp [insertSorted, h, ih]

lemma mem_sortQ {x : ℚ} {l : List ℚ} : x ∈ sortQ l ↔ x ∈ l := by
  induction l with
  | nil => simp [sortQ]
  | cons y ys ih => simp [sortQ, mem_insertSorted, ih]

lemma length_sortQ (l : List ℚ) : (sortQ l).length = l.length := by
  induction l with
  | nil => rfl
  | cons y ys ih => simp [sortQ, length_insertSorted, ih]

lemma getD_eq_of_all_eq {l : List ℚ} {c : ℚ} (hall : ∀ x ∈ l, x = c)
    {i : ℕ} (hi : i < l.length) : l.getD i 0 = c := by
  rw [List.getD_eq_getElem l 0 hi]
  exact hall _ (List.getElem_mem hi)

lemma npMedian_const {l : List ℚ} {c : ℚ} (hne : l ≠ []) (hall : ∀ x ∈ l, x = c) :
    npMedian l = c := by
  have hs : ∀ x ∈ sortQ l, x = c := fun x hx => hall x (mem_sortQ.mp hx)
  have hlen : (sortQ l).length = l.length := length_sortQ l
  have hpos : 0 < l.length := List.length_pos.mpr hne
  unfold npMedian
  by_cases hpar : (sortQ l).length % 2 = 1
  · simp only [hpar, if_pos, if_true]
    exact getD_eq_of_all_eq hs (by omega)
  · simp only [hpar, if_neg, if_false]
    have h1 : (sortQ l).getD ((sortQ l).length / 2 - 1) 0 = c :=
      getD_eq_of_all_eq hs (by omega)
    have h2 : (sortQ l).getD ((sortQ l).length / 2) 0 = c :=
      getD_eq_of_all_eq hs (by omega)
    rw [h1, h2]
    ring

lemma filterMap_id_replicate (n : ℕ) (c : ℚ) :
    (List.replicate n (some c : Option ℚ)).filterMap id = List.replicate n c := by
  induction n with
  | zero => rfl
  | succ n ih => simp [List.replicate_succ, ih]

lemma robust_average_const (n : ℕ) (hn : 0 < n) (c : ℚ) :
    robust_average (List.replicate n (some c)) (0.2 : ℚ) = some c := by
  have hne : List.replicate n c ≠ [] := by
    simp [List.replicate_eq_nil_iff]
    omega
  have hall : ∀ x ∈ List.replicate n c, x = c := fun x hx => List.eq_of_mem_replicate hx
  have hmed : npMedian (List.replicate n c) = c := npMedian_const hne hall
  have hempty : (List.replicate n c).isEmpty = false := by
    simp [List.isEmpty_iff, List.replicate_eq_nil_iff]
    omega
  unfold robust_average
  rw [filterMap_id_replicate]
  simp only [hempty, Bool.false_eq_true, if_false, hmed]
  by_cases hc : c = 0
  · simp [hc]
  · rw [if_neg hc]
    have hfil : ((List.replicate n c).filter fun v => |v - c| / |c| ≤ (0.2 : ℚ)) =
        List.replicate n c := by
      rw [List.filter_eq_self]
      intro a ha
      have ha' : a = c := List.eq_of_mem_replicate ha
      subst ha'
      simp only [sub_self, abs_zero, zero_div, decide_eq_true_eq]
      norm_num
    rw [hfil, hempty]
    simp only [Bool.false_eq_true, if_false]
    rw [List.sum_replicate, List.length_replicate, nsmul_eq_mul]
    rw [mul_div_cancel_left₀ c (by exact_mod_cast hn.ne' : (n : ℚ) ≠ 0)]

/-- Claim C4: for every batch of sampler invocations, zero successes yield
"no data" (`none`); otherwise a zero median yields 0; otherwise the result is
the arithmetic mean of the samples within relative deviation
`outlier_threshold` of the median, falling back to the median itself when the
filter removes every sample.  Consequently a constant source `c` yields `c`,
and samples `[10,10,10,10,1000]` with threshold 0.2 yield 10. -/
theorem C4_robust_sampler (results : List (Option ℚ)) (threshold : ℚ) :
    (results.filterMap id = [] → robust_average results threshold = none)
    ∧ (results.filterMap id ≠ [] → npMedian (results.filterMap id) = 0 →
        robust_average results threshold = some 0)
    ∧ (results.filterMap id ≠ [] → npMedian (results.filterMap id) ≠ 0 →
        ((results.filterMap id).filter
            (fun v => |v - npMedian (results.filterMap id)| /
              |npMedian (results.filterMap id)| ≤ threshold) = [] →
          robust_average results threshold = some (npMedian (results.filterMap id)))
        ∧ (∀ f, (results.filterMap id).filter
            (fun v => |v - npMedian (results.filterMap id)| /
              |npMedian (results.filterMap id)| ≤ threshold) = f → f ≠ [] →
          robust_average results threshold = some (f.sum / (f.length : ℚ))))
    ∧ (∀ (n : ℕ) (c : ℚ), 0 < n →
        robust_average (List.replicate n (some c)) (0.2 : ℚ) = some c)
    ∧ robust_average [some 10, some 10, some 10, some 10, some 1000] (0.2 : ℚ) = some 10 := by
  refine ⟨?_, ?_, ?_, fun n c hn => robust_average_const n hn c,
    by norm_num [robust_average, npMedian, sortQ, insertSorted, List.filterMap]⟩
  · intro h
    simp [robust_average, h]
  · intro hne hmed
    have hempty : (results.filterMap id).isEmpty = false := by
      simpa [List.isEmpty_iff] using hne
    simp [robust_average, hempty, hmed]
  · intro hne hmed
    have hempty : (results.filterMap id).isEmpty = false := by
      simpa [List.isEmpty_iff] using hne
    constructor
    · intro hfil
      simp [robust_average, hempty, hmed, hfil]
    · intro f hf hfne
      have hfe : f.isEmpty = false := by simpa [List.isEmpty_iff] using hfne
      simp [robust_average, hempty, hmed, hf, hfe]

/-- Witness for C4: a constant source of three samples of 7 yields 7. -/
theorem C4_witness : robust_average (List.replicate 3 (some (7 : ℚ))) (0.2 : ℚ) = some 7 :=
  (C4_robust_sampler [] 0).2.2.2.1 3 7 (by norm_num)

lemma reset_if_due_flag_true {deb : DebounceState} {t : ℕ}
    (h : (reset_if_due deb t).flag = true) : reset_if_due deb t = deb := by
  unfold reset_if_due at h ⊢
  by_cases hc : (deb.flag && decide (deb.resetAt ≤ t)) = true
  · rw [if_pos hc] at h
    simp at h
  · rw [if_neg hc]

lemma reset_if_due_flag_false_of_set {deb : DebounceState} {t : ℕ}
    (hflag : deb.flag = true) (h : (reset_if_due deb t).flag = false) :
    deb.resetAt ≤ t := by
  unfold reset_if_due at h
  by_cases hc : (deb.flag && decide (deb.resetAt ≤ t)) = true
  · simp [hflag] at hc
    exact hc
  · rw [if_neg hc] at h
    rw [hflag] at h
    cases h

lemma runAnomalies_gap (ts : List ℕ) : ∀ deb : DebounceState,
    List.Chain' (fun a b => a + 60 ≤ b) (runAnomalies deb ts)
    ∧ (deb.flag = true → ∀ f ∈ runAnomalies deb ts, deb.resetAt ≤ f) := by
  induction ts with
  | nil =>
    intro deb
    exact ⟨by simp [runAnomalies], fun _ f hf => by simp [runAnomalies] at hf⟩
  | cons t ts ih =>
    intro deb
    by_cases h0 : (reset_if_due deb t).flag = true
    · have hrun : runAnomalies deb (t :: ts) = runAnomalies (reset_if_due deb t) ts := by
        simp [runAnomalies, h0]
      have heq : reset_if_due deb t = deb := reset_if_due_flag_true h0
      refine ⟨by rw [hrun]; exact (ih _).1, ?_⟩
      intro hflag f hf
      rw [hrun] at hf
      have hres := (ih (reset_if_due deb t)).2 h0 f hf
      rwa [heq] at hres
    · have h0' : (reset_if_due deb t).flag = false := by
        exact Bool.not_eq_true _ ▸ Bool.eq_false_iff.mpr h0
      have htr : (trigger_response (reset_if_due deb t) t fun _ => 0).1 =
          (⟨true, t + 60⟩ : DebounceState) := by
        simp [trigger_response, h0']
      have hrun : runAnomalies deb (t :: ts) =
          t :: runAnomalies (⟨true, t + 60⟩ : DebounceState) ts := by
        simp [runAnomalies, h0', htr]
      have htail := ih (⟨true, t + 60⟩ : DebounceState)
      have hge : ∀ f ∈ runAnomalies (⟨true, t + 60⟩ : DebounceState) ts, t + 60 ≤ f :=
        fun f hf => htail.2 rfl f hf
      constructor
      · rw [hrun, List.chain'_cons']
        exact ⟨fun x hx => hge x (List.mem_of_mem_head? hx), htail.1⟩
      · intro hflag f hf
        rw [hrun] at hf
        rcases List.mem_cons.mp hf with rfl | hf'
        · exact reset_if_due_flag_false_of_set hflag h0'
        · have := hge f hf'
          have hle := reset_if_due_flag_false_of_set hflag h0'
          omega

lemma chain_gap_head_le (l : List ℕ) : ∀ a : ℕ,
    List.Chain' (fun x y => x + 60 ≤ y) (a :: l) → ∀ b ∈ l, a + 60 ≤ b := by
  induction l with
  | nil =>
    intro a _ b hb
    simp at hb
  | cons b l ih =>
    intro a hchain x hx
    rw [List.chain'_cons] at hchain
    rcases List.mem_cons.mp hx with rfl | hx'
    · exact hchain.1
    · have := ih b hchain.2 x hx'
      omega

lemma chain_gap_countP_le_one (l : List ℕ)
    (hchain : List.Chain' (fun x y => x + 60 ≤ y) l) (t0 : ℕ) :
    l.countP (fun t => decide (t0 ≤ t) && decide (t < t0 + 60)) ≤ 1 := by
  induction l with
  | nil => simp
  | cons a l ih =>
    rw [List.countP_cons]
    by_cases hpa : (decide (t0 ≤ a) && decide (a < t0 + 60)) = true
    · have hz : l.countP (fun t => decide (t0 ≤ t) && decide (t < t0 + 60)) = 0 := by
        rw [List.countP_eq_zero]
        intro b hb
        have hgeb := chain_gap_head_le l a hchain b hb
        simp only [Bool.and_eq_true, decide_eq_true_eq] at hpa ⊢
        intro hcontra
        omega
      rw [hz, hpa]
      simp
    · have := ih hchain.tail
      simp only [hpa]
      simpa using this

/-- Claim C2: while the alert-in-flight flag is set, a further anomaly signal
performs no enforcement action and publishes no alert; when the flag is
clear, an anomaly sets the flag, blocks the directory exactly once, publishes
exactly one alert message (attempted for every subscriber) and schedules the
flag clear 60 time units later; hence along any timed sequence of anomaly
signals, at most one enforcement/alert pair fires in any window of 60 time
units. -/
theorem C2_debounce :
    (∀ (deb : DebounceState) (now : ℕ) (data : FeatureKey → ℚ),
        deb.flag = true → trigger_response deb now data = (deb, []))
    ∧ (∀ (deb : DebounceState) (now : ℕ) (data : FeatureKey → ℚ),
        deb.flag = false →
          trigger_response deb now data =
            (⟨true, now + 60⟩,
             [RespAction.block_directory MONITOR_PATH,
              RespAction.publish (Message.alert alert_text data)]))
    ∧ (∀ (clients : List Client) (msg : Message),
        (notify_clients clients msg).length = clients.length
        ∧ ∀ c ∈ clients, c.send_fails = false →
            (c.cid, SendResult.delivered) ∈ notify_clients clients msg)
    ∧ (∀ (deb : DebounceState) (ts : List ℕ) (t0 : ℕ),
        (runAnomalies deb ts).countP
          (fun t => decide (t0 ≤ t) && decide (t < t0 + 60)) ≤ 1) := by
  refine ⟨?_, ?_, ?_, ?_⟩
  · intro deb now data h
    simp [trigger_response, h]
  · intro deb now data h
    simp [trigger_response, h]
  · intro clients msg
    refine ⟨by simp [notify_clients], ?_⟩
    intro c hc hcf
    simp only [notify_clients, List.mem_map]
    exact ⟨c, hc, by rw [hcf]; simp⟩
  · intro deb ts t0
    exact chain_gap_countP_le_one _ (runAnomalies_gap ts deb).1 t0

/-- Witness for C2: a set flag suppresses the response; a clear flag fires
the block + alert pair and re-arms for 60 units; the anomaly times 0, 1, 60
fire exactly at 0 and 60. -/
theorem C2_witness :
    trigger_response ⟨true, 60⟩ 1 (fun _ => 0) = (⟨true, 60⟩, [])
    ∧ trigger_response ⟨false, 0⟩ 5 (fun _ => 0) =
        (⟨true, 65⟩,
         [RespAction.block_directory MONITOR_PATH,
          RespAction.publish (Message.alert alert_text fun _ => 0)])
    ∧ runAnomalies ⟨false, 0⟩ [0, 1, 60] = [0, 60] :=
  ⟨C2_debounce.1 ⟨true, 60⟩ 1 (fun _ => 0) rfl,
   C2_debounce.2.1 ⟨false, 0⟩ 5 (fun _ => 0) rfl,
   by simp [runAnomalies, reset_if_due, trigger_response]⟩

/-- Claim C1: the detector classifies a cycle's data as anomalous
(`detection = 1`, `state = "ransomware detected"`) if and only if some
watched feature with positive baseline mean exceeds the 0.85 relative
deviation, or a file-event counter reaches 30; otherwise `detection = 0` and
`state = "normal"`. -/
theorem C1_detector_classification (baseline : FeatureKey → Stats) (data : FeatureKey → ℚ) :
    (detection baseline data = 1 ∧ detector_state baseline data = "ransomware detected"
      ↔ anomaly_condition baseline data)
    ∧ (detection baseline data = 0 ∧ detector_state baseline data = "normal"
      ↔ ¬ anomaly_condition baseline data) := by
  by_cases h : sudden_anomaly_check baseline data = true
  · have ha := (sudden_anomaly_check_iff baseline data).mp h
    simp [detection, detector_state, h, ha]
  · have hb : sudden_anomaly_check baseline data = false := by
      exact Bool.eq_false_iff.mpr h
    have ha : ¬ anomaly_condition baseline data :=
      fun hc => h ((sudden_anomaly_check_iff baseline data).mpr hc)
    simp [detection, detector_state, hb, ha]

/-- Witness for C1: with the initial baseline, a cycle in which every feature
reads 40 (so `modified = 40 ≥ 30`) is classified as ransomware. -/
theorem C1_witness :
    detection baseline_stats_init (fun _ => 40) = 1
    ∧ detector_state baseline_stats_init (fun _ => 40) = "ransomware detected" :=
  (C1_detector_classification baseline_stats_init (fun _ => 40)).1.mpr
    (Or.inr (Or.inl (by norm_num)))

/-- Claim C3: one baseline update step yields
`mean' = (1-α)·mean + α·v` and `std' = (1-α)·std + α·|v - mean'|` (deviation
taken against the already-updated mean); with α = 0.1, a mean of 20 observing
100 becomes 28, and observing 20 repeatedly is a fixed point of the mean. -/
theorem C3_baseline_update :
    (∀ (baseline : FeatureKey → Stats) (new_data : FeatureKey → Option ℚ) (alpha : ℚ)
        (k : FeatureKey) (v : ℚ), new_data k = some v →
        update_baseline baseline new_data alpha k =
          ⟨(1 - alpha) * (baseline k).mean + alpha * v,
           (1 - alpha) * (baseline k).std +
             alpha * |v - ((1 - alpha) * (baseline k).mean + alpha * v)|⟩)
    ∧ (∀ (baseline : FeatureKey → Stats) (new_data : FeatureKey → Option ℚ) (k : FeatureKey),
        (baseline k).mean = 20 → new_data k = some 100 →
        (update_baseline baseline new_data (0.1 : ℚ) k).mean = 28)
    ∧ (∀ (baseline : FeatureKey → Stats) (new_data : FeatureKey → Option ℚ) (k : FeatureKey)
        (n : ℕ), (baseline k).mean = 20 → new_data k = some 20 →
        ((fun b => update_baseline b new_data (0.1 : ℚ))^[n] baseline k).mean = 20) := by
  refine ⟨?_, ?_, ?_⟩
  · intro baseline new_data alpha k v hk
    simp [update_baseline, hk]
  · intro baseline new_data k h20 h100
    simp [update_baseline, h100, h20]
    norm_num
  · intro baseline new_data k n
    induction n generalizing baseline with
    | zero =>
      intro h20 _
      simpa using h20
    | succ n ih =>
      intro h20 hd
      rw [Function.iterate_succ_apply]
      refine ih _ ?_ hd
      simp [update_baseline, hd, h20]
      norm_num

/-- Witness for C3: from mean 20 and std 5, observing 100 once moves the mean
to exactly 28. -/
theorem C3_witness :
    (update_baseline (fun _ => ⟨20, 5⟩) (fun _ => some 100) (0.1 : ℚ)
      FeatureKey.cpu_usage).mean = 28 :=
  C3_baseline_update.2.1 (fun _ => ⟨20, 5⟩) (fun _ => some 100) FeatureKey.cpu_usage rfl rfl

/-- Claim C6: the change accumulator coalesces events per unique path
(re-recording a path is idempotent); recording modify(A), modify(A),
modify(B) and draining yields modified = 2; draining resets all three sets,
so an immediate second drain yields all zeros. -/
theorem C6_change_accumulator :
    (∀ (h : FileMonitorHandler) (e : FsEvent),
        (h.on_modified e).on_modified e = h.on_modified e)
    ∧ ((((((⟨∅, ∅, ∅⟩ : FileMonitorHandler).on_modified
            ⟨false, "A", ""⟩).on_modified ⟨false, "A", ""⟩).on_modified
            ⟨false, "B", ""⟩).get_file_event_counts) =
        (⟨2, 0, 0⟩, (⟨∅, ∅, ∅⟩ : FileMonitorHandler)))
    ∧ (∀ h : FileMonitorHandler,
        (h.get_file_event_counts.2).get_file_event_counts =
          (⟨0, 0, 0⟩, (⟨∅, ∅, ∅⟩ : FileMonitorHandler))) := by
  refine ⟨?_, ?_, fun h => rfl⟩
  · intro h e
    by_cases hd : e.is_directory <;>
      simp [FileMonitorHandler.on_modified, hd, Finset.insert_idem]
  · decide

lemma early_alert_fires_eq_sudden (baseline : FeatureKey → Stats) (data : FeatureKey → ℚ) :
    check_and_trigger_early_alert_fires baseline data = sudden_anomaly_check baseline data := by
  unfold check_and_trigger_early_alert_fires sudden_anomaly_check
  by_cases h : (watch_list.any fun key =>
      let base_mean := (baseline key).mean
      decide (0 < base_mean) &&
        decide ((0.85 : ℚ) < |data key - base_mean| / base_mean)) = true
  · simp [h]
  · simp only [Bool.not_eq_true] at h
    simp [h]

/-- Claim C7: on every cycle — anomalous or normal — the resulting baseline
is exactly one `update_baseline` step applied to the cycle's observed data,
and the detection decision is computed against the pre-update baseline. -/
theorem C7_update_after_evaluation (env : ProbeEnv) (now : ℕ) (s : SystemState) :
    (collect_and_predict env now s).baseline =
        update_baseline s.baseline
          (fun k => some ((collect_and_predict env now s).data k)) (0.1 : ℚ)
    ∧ (collect_and_predict env now s).detection =
        detection s.baseline (collect_and_predict env now s).data := by
  exact ⟨rfl, rfl⟩

/-- Claim C8: the early-alert check fires exactly when the main detector
classifies the same data against the same baseline as anomalous, and the
early check's firing (whose only effect is on the debounce state) does not
change the main detection result. -/
theorem C8_early_alert_equivalence :
    (∀ (baseline : FeatureKey → Stats) (data : FeatureKey → ℚ),
        check_and_trigger_early_alert_fires baseline data = sudden_anomaly_check baseline data)
    ∧ (∀ (env : ProbeEnv) (now : ℕ) (s : SystemState),
        check_and_trigger_early_alert_fires s.baseline (collect_and_predict env now s).data = true
          ↔ (collect_and_predict env now s).detection = 1)
    ∧ (∀ (env : ProbeEnv) (now : ℕ) (s : SystemState) (deb' : DebounceState),
        (collect_and_predict env now { s with deb := deb' }).detection =
          (collect_and_predict env now s).detection) := by
  refine ⟨early_alert_fires_eq_sudden, ?_, fun env now s deb' => rfl⟩
  intro env now s
  rw [early_alert_fires_eq_sudden]
  show sudden_anomaly_check s.baseline (collect_system_data env s.handler).1 = true ↔
    (if sudden_anomaly_check s.baseline (collect_system_data env s.handler).1 then 1 else 0) = 1
  by_cases h : sudden_anomaly_check s.baseline (collect_system_data env s.handler).1 = true <;>
    simp [h]

/-- Witness for C8: at the initial baseline on all-zero data the early check
and the main detector agree. -/
theorem C8_witness :
    check_and_trigger_early_alert_fires baseline_stats_init (fun _ => 0) =
      sudden_anomaly_check baseline_stats_init (fun _ => 0) :=
  C8_early_alert_equivalence.1 baseline_stats_init (fun _ => 0)

/-- Claim C9: on every cycle, whatever the detection outcome, the live feed
publishes one `live_tracking` message whose payload is the 14-entry map of
the cycle's raw feature values (the very values the detector read), and a
per-subscriber send failure does not prevent delivery to the remaining
subscribers. -/
theorem C9_live_feed (env : ProbeEnv) (now : ℕ) (s : SystemState) (clients : List Client) :
    (notify_live_tracking clients (collect_and_predict env now s).features).1 =
        Message.live_tracking (features_map (collect_and_predict env now s).data)
    ∧ (collect_and_predict env now s).features =
        features_map (collect_and_predict env now s).data
    ∧ (features_map (collect_and_predict env now s).data).length = 14
    ∧ (notify_live_tracking clients (collect_and_predict env now s).features).2.length =
        clients.length
    ∧ (∀ c ∈ clients, c.send_fails = false →
        (c.cid, SendResult.delivered) ∈
          (notify_live_tracking clients (collect_and_predict env now s).features).2) := by
  refine ⟨rfl, rfl, rfl, by simp [notify_live_tracking, notify_clients], ?_⟩
  intro c hc hcf
  simp only [notify_live_tracking, notify_clients, List.mem_map]
  exact ⟨c, hc, by rw [hcf]; simp⟩

/-- Witness for C9: with one healthy subscriber, the live-tracking payload is
delivered to it. -/
theorem C9_witness :
    (0, SendResult.delivered) ∈
      (notify_live_tracking [⟨0, false⟩]
        (collect_and_predict ⟨0, 0, 0, 0, 0, 0, 0, 0, 0, 0⟩ 0
          ⟨⟨∅, ∅, ∅⟩, baseline_stats_init, ⟨false, 0⟩⟩).features).2 :=
  (C9_live_feed ⟨0, 0, 0, 0, 0, 0, 0, 0, 0, 0⟩ 0
      ⟨⟨∅, ∅, ∅⟩, baseline_stats_init, ⟨false, 0⟩⟩ [⟨0, false⟩]).2.2.2.2
    ⟨0, false⟩ (List.mem_singleton.mpr rfl) rfl

/-- Claim C10: the `/system_data` endpoint is not read-only: every call runs
a full detection cycle, leaving the change accumulator drained (all three
sets empty), replacing the global baseline by its one-step update, and — when
the data is classified anomalous and the debounce flag is clear — performing
the enforcement action and the alert publish itself; while the flag is set it
performs no response actions. -/
theorem C10_snapshot_side_effects (env : ProbeEnv) (now : ℕ) (s : SystemState) :
    (get_system_data env now s).2.handler = (⟨∅, ∅, ∅⟩ : FileMonitorHandler)
    ∧ (get_system_data env now s).2.baseline =
        update_baseline s.baseline
          (fun k => some ((collect_and_predict env now s).data k)) (0.1 : ℚ)
    ∧ (s.deb.flag = false → (collect_and_predict env now s).detection = 1 →
        (collect_and_predict env now s).actions =
          [RespAction.block_directory MONITOR_PATH,
           RespAction.publish (Message.alert alert_text (collect_and_predict env now s).data)]
        ∧ (get_system_data env now s).2.deb = (⟨true, now + 60⟩ : DebounceState))
    ∧ (s.deb.flag = true → (collect_and_predict env now s).actions = []) := by
  refine ⟨rfl, rfl, ?_, ?_⟩
  · intro hflag hdet
    have hsud : sudden_anomaly_check s.baseline (collect_system_data env s.handler).1 = true := by
      by_cases h : sudden_anomaly_check s.baseline (collect_system_data env s.handler).1 = true
      · exact h
      · exfalso
        simp only [Bool.not_eq_true] at h
        have hz : (collect_and_predict env now s).detection = 0 := by
          simp [collect_and_predict, h]
        omega
    have hfires : check_and_trigger_early_alert_fires s.baseline
        (collect_system_data env s.handler).1 = true := by
      rw [early_alert_fires_eq_sudden]
      exact hsud
    constructor
    · simp [collect_and_predict, hfires, hsud, trigger_response, hflag]
    · simp [get_system_data, collect_and_predict, hfires, hsud, trigger_response, hflag]
  · intro hflag
    by_cases hsud : sudden_anomaly_check s.baseline (collect_system_data env s.handler).1 = true
    · have hfires : check_and_trigger_early_alert_fires s.baseline
          (collect_system_data env s.handler).1 = true := by
        rw [early_alert_fires_eq_sudden]
        exact hsud
      simp [collect_and_predict, hfires, hsud, trigger_response, hflag]
    · have hsud2 : sudden_anomaly_check s.baseline (collect_system_data env s.handler).1 =
          false := by
        simpa using hsud
      have hfires : check_and_trigger_early_alert_fires s.baseline
          (collect_system_data env s.handler).1 = false := by
        rw [early_alert_fires_eq_sudden]
        exact hsud2
      simp [collect_and_predict, hfires, hsud2, trigger_response, hflag]

/-- Witness for C10: with the initial baseline and a cycle reading memory_usage =
100 (relative deviation 7/3 > 0.85) and a clear flag, the endpoint call
itself performs the block + alert pair and leaves the flag armed until 60. -/
theorem C10_witness :
    (collect_and_predict ⟨20, 100, 40, 3, 0, 0, 0, 0, 0, 50⟩ 0
        ⟨⟨∅, ∅, ∅⟩, baseline_stats_init, ⟨false, 0⟩⟩).actions =
      [RespAction.block_directory MONITOR_PATH,
       RespAction.publish (Message.alert alert_text
         (collect_and_predict ⟨20, 100, 40, 3, 0, 0, 0, 0, 0, 50⟩ 0
           ⟨⟨∅, ∅, ∅⟩, baseline_stats_init, ⟨false, 0⟩⟩).data)]
    ∧ (get_system_data ⟨20, 100, 40, 3, 0, 0, 0, 0, 0, 50⟩ 0
        ⟨⟨∅, ∅, ∅⟩, baseline_stats_init, ⟨false, 0⟩⟩).2.deb =
      (⟨true, 60⟩ : DebounceState) :=
  (C10_snapshot_side_effects ⟨20, 100, 40, 3, 0, 0, 0, 0, 0, 50⟩ 0
      ⟨⟨∅, ∅, ∅⟩, baseline_stats_init, ⟨false, 0⟩⟩).2.2.1 rfl
    (by norm_num [collect_and_predict, collect_system_data, sudden_anomaly_check,
      watch_list, baseline_stats_init, FileMonitorHandler.get_file_event_counts])

/-- Claim C5 is refuted by the code: when a sampler-backed source fails by
exhaustion (here: every `psutil.virtual_memory().percent` sample raised, so
`get_memory_usage()` returned `None`), `collect_system_data` stores the
`None` unchanged instead of substituting the baseline mean or zero, and the
subsequent early-alert check aborts the detection cycle with an uncaught
`TypeError` on `abs(None - base_mean)`. -/
theorem C5_sampler_exhaustion_aborts :
    (collect_system_data_fallible failing_probes ⟨∅, ∅, ∅⟩).1 FeatureKey.memory_usage = none
    ∧ check_and_trigger_early_alert_fallible baseline_stats_init
        (collect_system_data_fallible failing_probes ⟨∅, ∅, ∅⟩).1 =
      Except.error "TypeError" := by
  constructor
  · rfl
  · have hmean : (0 : ℚ) < (baseline_stats_init FeatureKey.memory_usage).mean := by
      norm_num [baseline_stats_init]
    simp [check_and_trigger_early_alert_fallible, early_alert_relative_scan, watch_list,
      collect_system_data_fallible, failing_probes, hmean]
